import Mathlib

/-!
Shallow embedding of the transaction combinator algebra from
`src/transaction/src/lib.rs` (crate `transaction`).

A Rust transaction is a value with `run(&self, ctx: &mut Ctx) -> Result<Item, Err>`.
We model it by explicit state passing: `run : Ctx → Except E T × Ctx`, where the
second component is the context after the run (the mutation of `&mut Ctx`).
`Result<T, E>` is modelled by `Except E T` (`Ok` = `Except.ok`, `Err` = `Except.error`).

Each leaf constructor and each combinator below is translated from the
corresponding `impl Transaction for ...` block of the source file.
-/

namespace TransactionRs

/-- The abstract transaction: `Transaction<Ctx>` with `Item = T`, `Err = E`.
`run` threads the mutable context explicitly. -/
structure Tx (Ctx : Type) (T : Type) (E : Type) where
  run : Ctx → Except E T × Ctx

/-- Leaf `result(r)`: `TxResult::run` returns `self.r.clone()`, context untouched. -/
def result {Ctx T E : Type} (r : Except E T) : Tx Ctx T E :=
  ⟨fun ctx => (r, ctx)⟩

/-- Leaf `ok(v)`: `TxOk::run` returns `Ok(self.ok.clone())`, context untouched. -/
def ok {Ctx T E : Type} (t : T) : Tx Ctx T E :=
  ⟨fun ctx => (Except.ok t, ctx)⟩

/-- Leaf `err(e)`: `TxErr::run` returns `Err(self.err.clone())`, context untouched. -/
def err {Ctx T E : Type} (e : E) : Tx Ctx T E :=
  ⟨fun ctx => (Except.error e, ctx)⟩

/-- Leaf `lazy(f)`: `Lazy::run` calls `(self.f)()`; the closure takes no context. -/
def lazy {Ctx T E : Type} (f : Unit → Except E T) : Tx Ctx T E :=
  ⟨fun ctx => (f (), ctx)⟩

/-- Leaf `with_ctx(f)`: `WithCtx::run` calls `(self.f)(ctx)`; the closure may read
and mutate the context, so it is modelled as `Ctx → Except E T × Ctx`. -/
def with_ctx {Ctx T E : Type} (f : Ctx → Except E T × Ctx) : Tx Ctx T E :=
  ⟨f⟩

/-- `Map::run`: `tx.run(ctx).map(f)`. -/
def Tx.map {Ctx T U E : Type} (tx : Tx Ctx T E) (f : T → U) : Tx Ctx U E :=
  ⟨fun ctx =>
    let p := tx.run ctx
    (p.1.map f, p.2)⟩

/-- `Then::run`: `f(tx.run(ctx)).run(ctx)` — the whole first result is handed to
`f`, and the transaction it returns runs against the updated context. -/
def Tx.then' {Ctx T U E : Type} (tx : Tx Ctx T E) (f : Except E T → Tx Ctx U E) :
    Tx Ctx U E :=
  ⟨fun ctx =>
    let p := tx.run ctx
    (f p.1).run p.2⟩

/-- `AndThen::run`: `tx.run(ctx).and_then(|item| f(item).run(ctx))`. -/
def Tx.and_then {Ctx T U E : Type} (tx : Tx Ctx T E) (f : T → Tx Ctx U E) :
    Tx Ctx U E :=
  ⟨fun ctx =>
    match tx.run ctx with
    | (Except.ok v, c) => (f v).run c
    | (Except.error e, c) => (Except.error e, c)⟩

/-- `MapErr::run`: `tx.run(ctx).map_err(f)`. -/
def Tx.map_err {Ctx T E E2 : Type} (tx : Tx Ctx T E) (f : E → E2) : Tx Ctx T E2 :=
  ⟨fun ctx =>
    let p := tx.run ctx
    (p.1.mapError f, p.2)⟩

/-- `OrElse::run`: `tx.run(ctx).or_else(|e| f(e).run(ctx))`.  In the source the
impl constrains `Tx2` only by `Item = Tx::Item`, and sets `type Err = Tx2::Err`:
the fallback transaction may have a different error type `E2`. -/
def Tx.or_else {Ctx T E E2 : Type} (tx : Tx Ctx T E) (f : E → Tx Ctx T E2) :
    Tx Ctx T E2 :=
  ⟨fun ctx =>
    match tx.run ctx with
    | (Except.ok v, c) => (Except.ok v, c)
    | (Except.error e, c) => (f e).run c⟩

/-- `Abort::run`: on `Ok(r)` returns `Err(f(r))`, on `Err(e)` returns `Err(e)`.
The `Item` type of `Abort<Tx, T, F>` is the free phantom parameter `T` (here `U`),
since the run never produces a success value. -/
def Tx.abort {Ctx T E U : Type} (tx : Tx Ctx T E) (f : T → E) : Tx Ctx U E :=
  ⟨fun ctx =>
    match tx.run ctx with
    | (Except.ok r, c) => (Except.error (f r), c)
    | (Except.error e, c) => (Except.error e, c)⟩

/-- `TryAbort::run`: on `Ok(r)` returns `f(r)`, on `Err(e)` returns `Err(e)`;
`type Err = Tx::Err` is unchanged. -/
def Tx.try_abort {Ctx T E B : Type} (tx : Tx Ctx T E) (f : T → Except E B) :
    Tx Ctx B E :=
  ⟨fun ctx =>
    match tx.run ctx with
    | (Except.ok r, c) => (f r, c)
    | (Except.error e, c) => (Except.error e, c)⟩

/-- `Recover::run`: on `Ok(_)` passes the result through, on `Err(e)` returns
`Ok(f(e))` (the impl requires `F: Fn(Tx::Err) -> Tx::Item`). -/
def Tx.recover {Ctx T E : Type} (tx : Tx Ctx T E) (f : E → T) : Tx Ctx T E :=
  ⟨fun ctx =>
    match tx.run ctx with
    | (Except.ok r, c) => (Except.ok r, c)
    | (Except.error e, c) => (Except.ok (f e), c)⟩

/-- `TryRecover::run`: on `Ok(r)` returns `Ok(r)`, on `Err(e)` returns `f(e)`;
`type Err = B`, the error type of `f`'s result. -/
def Tx.try_recover {Ctx T E B : Type} (tx : Tx Ctx T E) (f : E → Except B T) :
    Tx Ctx T B :=
  ⟨fun ctx =>
    match tx.run ctx with
    | (Except.ok r, c) => (Except.ok r, c)
    | (Except.error e, c) => (f e, c)⟩

/-- `Join::run`: `match (tx1.run(ctx), tx2.run(ctx))` — Rust evaluates the tuple
left to right against the same `&mut ctx`, so `tx2` runs on the context left by
`tx1`; then `(Ok, Ok) => Ok(tuple)`, `(Err(e), _) | (_, Err(e)) => Err(e)` with
the first matching arm winning. -/
def Tx.join {Ctx A B E : Type} (tx1 : Tx Ctx A E) (tx2 : Tx Ctx B E) :
    Tx Ctx (A × B) E :=
  ⟨fun ctx =>
    let p1 := tx1.run ctx
    let p2 := tx2.run p1.2
    (match p1.1, p2.1 with
     | Except.ok r1, Except.ok r2 => Except.ok (r1, r2)
     | Except.error e, _ => Except.error e
     | _, Except.error e => Except.error e,
     p2.2)⟩

/-- `Join3::run`, same pattern with three children. -/
def Tx.join3 {Ctx A B C E : Type} (tx1 : Tx Ctx A E) (tx2 : Tx Ctx B E)
    (tx3 : Tx Ctx C E) : Tx Ctx (A × B × C) E :=
  ⟨fun ctx =>
    let p1 := tx1.run ctx
    let p2 := tx2.run p1.2
    let p3 := tx3.run p2.2
    (match p1.1, p2.1, p3.1 with
     | Except.ok r1, Except.ok r2, Except.ok r3 => Except.ok (r1, r2, r3)
     | Except.error e, _, _ => Except.error e
     | _, Except.error e, _ => Except.error e
     | _, _, Except.error e => Except.error e,
     p3.2)⟩

/-- `Join4::run`, same pattern with four children. -/
def Tx.join4 {Ctx A B C D E : Type} (tx1 : Tx Ctx A E) (tx2 : Tx Ctx B E)
    (tx3 : Tx Ctx C E) (tx4 : Tx Ctx D E) : Tx Ctx (A × B × C × D) E :=
  ⟨fun ctx =>
    let p1 := tx1.run ctx
    let p2 := tx2.run p1.2
    let p3 := tx3.run p2.2
    let p4 := tx4.run p3.2
    (match p1.1, p2.1, p3.1, p4.1 with
     | Except.ok r1, Except.ok r2, Except.ok r3, Except.ok r4 =>
       Except.ok (r1, r2, r3, r4)
     | Except.error e, _, _, _ => Except.error e
     | _, Except.error e, _, _ => Except.error e
     | _, _, Except.error e, _ => Except.error e
     | _, _, _, Except.error e => Except.error e,
     p4.2)⟩

/-- The erased handle `Box<Transaction<Ctx, Item = T, Err = E>>` produced by
`Transaction::boxed`: it stores the wrapped transaction's behaviour behind
dynamic dispatch. -/
structure BoxedTx (Ctx : Type) (T : Type) (E : Type) where
  run : Ctx → Except E T × Ctx

/-- `Transaction::boxed`: `Box::new(self)`. -/
def Tx.boxed {Ctx T E : Type} (tx : Tx Ctx T E) : BoxedTx Ctx T E :=
  ⟨tx.run⟩

/-- `impl Transaction for Box<T>`: `(**self).run(ctx)` — the box is itself a
transaction forwarding to the wrapped value. -/
def BoxedTx.toTx {Ctx T E : Type} (b : BoxedTx Ctx T E) : Tx Ctx T E :=
  ⟨b.run⟩

/-- `impl Transaction for &T`: a shared reference to a transaction is itself a
transaction, forwarding `run` to the referent. -/
def refTx {Ctx T E : Type} (tx : Tx Ctx T E) : Tx Ctx T E :=
  ⟨fun ctx => tx.run ctx⟩

/-- The `Err` associated type of a transaction, as a `Type`-valued observation. -/
def errTypeOf {Ctx T E : Type} (_ : Tx Ctx T E) : Type := E

end TransactionRs

namespace TransactionRs

/-- C1: every join/join3/join4 runs all children unconditionally in declared
left-to-right order with no short-circuiting: the final context is always the
one obtained by running each child in order on its predecessor's output context
(whatever the children's results are), and in
`join(with_ctx(writes), with_ctx(reads))` the second child observes the first
child's write. -/
theorem C1_join_runs_all_children :
    (∀ (Ctx A B E : Type) (tx1 : Tx Ctx A E) (tx2 : Tx Ctx B E) (ctx : Ctx),
      ((tx1.join tx2).run ctx).2 = (tx2.run (tx1.run ctx).2).2) ∧
    (∀ (Ctx A B C E : Type) (tx1 : Tx Ctx A E) (tx2 : Tx Ctx B E)
      (tx3 : Tx Ctx C E) (ctx : Ctx),
      ((tx1.join3 tx2 tx3).run ctx).2 =
        (tx3.run (tx2.run (tx1.run ctx).2).2).2) ∧
    (∀ (Ctx A B C D E : Type) (tx1 : Tx Ctx A E) (tx2 : Tx Ctx B E)
      (tx3 : Tx Ctx C E) (tx4 : Tx Ctx D E) (ctx : Ctx),
      ((tx1.join4 tx2 tx3 tx4).run ctx).2 =
        (tx4.run (tx3.run (tx2.run (tx1.run ctx).2).2).2).2) ∧
    (∀ (Ctx E : Type) (w : Ctx → Ctx) (ctx : Ctx),
      ((with_ctx (fun c => (Except.ok (), w c))).join
          (with_ctx (fun c => (Except.ok c, c))) : Tx Ctx (Unit × Ctx) E).run ctx =
        (Except.ok ((), w ctx), w ctx)) := by
  refine ⟨fun Ctx A B E tx1 tx2 ctx => rfl,
          fun Ctx A B C E tx1 tx2 tx3 ctx => rfl,
          fun Ctx A B C D E tx1 tx2 tx3 tx4 ctx => rfl,
          fun Ctx E w ctx => rfl⟩

/-- C2: for join/join3/join4, after all children have run, the first child in
declared order whose result is a failure determines the overall error; if no
child failed, the result is `Ok` of the tuple of all success values in order. -/
theorem C2_join_error_selection :
    (∀ (Ctx A B E : Type) (tx1 : Tx Ctx A E) (tx2 : Tx Ctx B E) (ctx : Ctx),
      (∀ e c1, tx1.run ctx = (Except.error e, c1) →
        ((tx1.join tx2).run ctx).1 = Except.error e) ∧
      (∀ a c1 e c2, tx1.run ctx = (Except.ok a, c1) →
        tx2.run c1 = (Except.error e, c2) →
        ((tx1.join tx2).run ctx).1 = Except.error e) ∧
      (∀ a c1 b c2, tx1.run ctx = (Except.ok a, c1) →
        tx2.run c1 = (Except.ok b, c2) →
        (tx1.join tx2).run ctx = (Except.ok (a, b), c2))) ∧
    (∀ (Ctx A B C E : Type) (tx1 : Tx Ctx A E) (tx2 : Tx Ctx B E)
      (tx3 : Tx Ctx C E) (ctx : Ctx),
      (∀ e c1, tx1.run ctx = (Except.error e, c1) →
        ((tx1.join3 tx2 tx3).run ctx).1 = Except.error e) ∧
      (∀ a c1 e c2, tx1.run ctx = (Except.ok a, c1) →
        tx2.run c1 = (Except.error e, c2) →
        ((tx1.join3 tx2 tx3).run ctx).1 = Except.error e) ∧
      (∀ a c1 b c2 e c3, tx1.run ctx = (Except.ok a, c1) →
        tx2.run c1 = (Except.ok b, c2) →
        tx3.run c2 = (Except.error e, c3) →
        ((tx1.join3 tx2 tx3).run ctx).1 = Except.error e) ∧
      (∀ a c1 b c2 r c3, tx1.run ctx = (Except.ok a, c1) →
        tx2.run c1 = (Except.ok b, c2) →
        tx3.run c2 = (Except.ok r, c3) →
        (tx1.join3 tx2 tx3).run ctx = (Except.ok (a, b, r), c3))) ∧
    (∀ (Ctx A B C D E : Type) (tx1 : Tx Ctx A E) (tx2 : Tx Ctx B E)
      (tx3 : Tx Ctx C E) (tx4 : Tx Ctx D E) (ctx : Ctx),
      (∀ e c1, tx1.run ctx = (Except.error e, c1) →
        ((tx1.join4 tx2 tx3 tx4).run ctx).1 = Except.error e) ∧
      (∀ a c1 e c2, tx1.run ctx = (Except.ok a, c1) →
        tx2.run c1 = (Except.error e, c2) →
        ((tx1.join4 tx2 tx3 tx4).run ctx).1 = Except.error e) ∧
      (∀ a c1 b c2 e c3, tx1.run ctx = (Except.ok a, c1) →
        tx2.run c1 = (Except.ok b, c2) →
        tx3.run c2 = (Except.error e, c3) →
        ((tx1.join4 tx2 tx3 tx4).run ctx).1 = Except.error e) ∧
      (∀ a c1 b c2 r c3 e c4, tx1.run ctx = (Except.ok a, c1) →
        tx2.run c1 = (Except.ok b, c2) →
        tx3.run c2 = (Except.ok r, c3) →
        tx4.run c3 = (Except.error e, c4) →
        ((tx1.join4 tx2 tx3 tx4).run ctx).1 = Except.error e) ∧
      (∀ a c1 b c2 r c3 s c4, tx1.run ctx = (Except.ok a, c1) →
        tx2.run c1 = (Except.ok b, c2) →
        tx3.run c2 = (Except.ok r, c3) →
        tx4.run c3 = (Except.ok s, c4) →
        (tx1.join4 tx2 tx3 tx4).run ctx = (Except.ok (a, b, r, s), c4))) := by
  refine ⟨fun Ctx A B E tx1 tx2 ctx => ⟨?_, ?_, ?_⟩,
          fun Ctx A B C E tx1 tx2 tx3 ctx => ⟨?_, ?_, ?_, ?_⟩,
          fun Ctx A B C D E tx1 tx2 tx3 tx4 ctx => ⟨?_, ?_, ?_, ?_, ?_⟩⟩
  · intro e c1 h1
    rcases h2 : tx2.run c1 with ⟨r2, c2⟩
    cases r2 <;> simp [Tx.join, h1, h2]
  · intro a c1 e c2 h1 h2
    simp [Tx.join, h1, h2]
  · intro a c1 b c2 h1 h2
    simp [Tx.join, h1, h2]
  · intro e c1 h1
    rcases h2 : tx2.run c1 with ⟨r2, c2⟩
    rcases h3 : tx3.run c2 with ⟨r3, c3⟩
    cases r2 <;> cases r3 <;> simp [Tx.join3, h1, h2, h3]
  · intro a c1 e c2 h1 h2
    rcases h3 : tx3.run c2 with ⟨r3, c3⟩
    cases r3 <;> simp [Tx.join3, h1, h2, h3]
  · intro a c1 b c2 e c3 h1 h2 h3
    simp [Tx.join3, h1, h2, h3]
  · intro a c1 b c2 r c3 h1 h2 h3
    simp [Tx.join3, h1, h2, h3]
  · intro e c1 h1
    rcases h2 : tx2.run c1 with ⟨r2, c2⟩
    rcases h3 : tx3.run c2 with ⟨r3, c3⟩
    rcases h4 : tx4.run c3 with ⟨r4, c4⟩
    cases r2 <;> cases r3 <;> cases r4 <;> simp [Tx.join4, h1, h2, h3, h4]
  · intro a c1 e c2 h1 h2
    rcases h3 : tx3.run c2 with ⟨r3, c3⟩
    rcases h4 : tx4.run c3 with ⟨r4, c4⟩
    cases r3 <;> cases r4 <;> simp [Tx.join4, h1, h2, h3, h4]
  · intro a c1 b c2 e c3 h1 h2 h3
    rcases h4 : tx4.run c3 with ⟨r4, c4⟩
    cases r4 <;> simp [Tx.join4, h1, h2, h3, h4]
  · intro a c1 b c2 r c3 e c4 h1 h2 h3 h4
    simp [Tx.join4, h1, h2, h3, h4]
  · intro a c1 b c2 r c3 s c4 h1 h2 h3 h4
    simp [Tx.join4, h1, h2, h3, h4]

/-- C2 witness: `join(err(1), err(2))` run on the unit context yields `Err 1`,
by the first conjunct of the error-selection theorem at concrete inputs. -/
theorem C2_join_error_selection_witness :
    (((err 1 : Tx Unit Nat Nat).join (err 2 : Tx Unit Nat Nat)).run ()).1 =
      Except.error 1 :=
  (C2_join_error_selection.1 Unit Nat Nat Nat (err 1) (err 2) ()).1 1 () rfl

end TransactionRs

namespace TransactionRs

/-- C3 counterexample: the claim that `or_else` preserves the first child's
error type fails — `OrElse` sets `Err = Tx2::Err`, the error type of the
fallback transaction. Concretely, the first child has error type `Nat`, the
fallback has error type `Bool`, and the result's error type is `Bool ≠ Nat`. -/
theorem C3_or_else_error_type_cex :
    ¬ errTypeOf ((err 0 : Tx Unit Unit Nat).or_else
        (fun _ => (ok () : Tx Unit Unit Bool))) = Nat := by
  intro h
  have hb : Bool = Nat := h
  have hf : Finite Nat := hb ▸ (inferInstance : Finite Bool)
  exact @not_finite Nat _ hf

/-- C3 (amended): `map`, `then`, `and_then`, `abort`, `recover`, `join`,
`join3`, `join4` (and also `try_abort`) produce a transaction whose error type
equals that of the (first) child; `map_err`, `try_recover` change it to their
target type; `or_else` produces a transaction whose error type is that of the
fallback transaction returned by `f`, not that of the first child. -/
theorem C3_error_type_uniformity :
    (∀ (Ctx T U E : Type) (tx : Tx Ctx T E) (f : T → U),
      errTypeOf (tx.map f) = errTypeOf tx) ∧
    (∀ (Ctx T U E : Type) (tx : Tx Ctx T E) (f : Except E T → Tx Ctx U E),
      errTypeOf (tx.then' f) = errTypeOf tx) ∧
    (∀ (Ctx T U E : Type) (tx : Tx Ctx T E) (f : T → Tx Ctx U E),
      errTypeOf (tx.and_then f) = errTypeOf tx) ∧
    (∀ (Ctx T E U : Type) (tx : Tx Ctx T E) (f : T → E),
      errTypeOf (tx.abort f : Tx Ctx U E) = errTypeOf tx) ∧
    (∀ (Ctx T E B : Type) (tx : Tx Ctx T E) (f : T → Except E B),
      errTypeOf (tx.try_abort f) = errTypeOf tx) ∧
    (∀ (Ctx T E : Type) (tx : Tx Ctx T E) (f : E → T),
      errTypeOf (tx.recover f) = errTypeOf tx) ∧
    (∀ (Ctx A B E : Type) (tx1 : Tx Ctx A E) (tx2 : Tx Ctx B E),
      errTypeOf (tx1.join tx2) = errTypeOf tx1) ∧
    (∀ (Ctx A B C E : Type) (tx1 : Tx Ctx A E) (tx2 : Tx Ctx B E)
      (tx3 : Tx Ctx C E),
      errTypeOf (tx1.join3 tx2 tx3) = errTypeOf tx1) ∧
    (∀ (Ctx A B C D E : Type) (tx1 : Tx Ctx A E) (tx2 : Tx Ctx B E)
      (tx3 : Tx Ctx C E) (tx4 : Tx Ctx D E),
      errTypeOf (tx1.join4 tx2 tx3 tx4) = errTypeOf tx1) ∧
    (∀ (Ctx T E E2 : Type) (tx : Tx Ctx T E) (f : E → E2),
      errTypeOf (tx.map_err f) = E2) ∧
    (∀ (Ctx T E B : Type) (tx : Tx Ctx T E) (f : E → Except B T),
      errTypeOf (tx.try_recover f) = B) ∧
    (∀ (Ctx T E E2 : Type) (tx : Tx Ctx T E) (f : E → Tx Ctx T E2),
      errTypeOf (tx.or_else f) = E2) :=
  ⟨fun _ _ _ _ _ _ => rfl, fun _ _ _ _ _ _ => rfl, fun _ _ _ _ _ _ => rfl,
   fun _ _ _ _ _ _ => rfl, fun _ _ _ _ _ _ => rfl, fun _ _ _ _ _ => rfl,
   fun _ _ _ _ _ _ => rfl, fun _ _ _ _ _ _ _ _ => rfl,
   fun _ _ _ _ _ _ _ _ _ _ => rfl, fun _ _ _ _ _ _ => rfl,
   fun _ _ _ _ _ _ => rfl, fun _ _ _ _ _ _ => rfl⟩

/-- C4: `recover(tx, f)` converts any failure of `tx` into a success by applying
`f` to the error value, and passes any success through unchanged; in particular
`recover(err(e), f)` yields `Ok(f(e))` and `recover(ok(v), f)` yields `Ok(v)`,
with the context left as `tx` left it. -/
theorem C4_recover :
    (∀ (Ctx T E : Type) (tx : Tx Ctx T E) (f : E → T) (ctx : Ctx) (e : E)
      (c : Ctx), tx.run ctx = (Except.error e, c) →
        (tx.recover f).run ctx = (Except.ok (f e), c)) ∧
    (∀ (Ctx T E : Type) (tx : Tx Ctx T E) (f : E → T) (ctx : Ctx) (v : T)
      (c : Ctx), tx.run ctx = (Except.ok v, c) →
        (tx.recover f).run ctx = (Except.ok v, c)) ∧
    (∀ (Ctx T E : Type) (f : E → T) (e : E) (ctx : Ctx),
      ((err e : Tx Ctx T E).recover f).run ctx = (Except.ok (f e), ctx)) ∧
    (∀ (Ctx T E : Type) (f : E → T) (v : T) (ctx : Ctx),
      ((ok v : Tx Ctx T E).recover f).run ctx = (Except.ok v, ctx)) := by
  refine ⟨?_, ?_, ?_, ?_⟩
  · intro Ctx T E tx f ctx e c h
    simp [Tx.recover, h]
  · intro Ctx T E tx f ctx v c h
    simp [Tx.recover, h]
  · intro Ctx T E f e ctx
    rfl
  · intro Ctx T E f v ctx
    rfl

/-- C4 witness: `recover(err(3), +1)` on context `0` yields `Ok 4` with the
context unchanged, by the first conjunct at concrete inputs. -/
theorem C4_recover_witness :
    ((err 3 : Tx Nat Nat Nat).recover (fun e => e + 1)).run 0 =
      (Except.ok 4, 0) :=
  C4_recover.1 Nat Nat Nat (err 3) (fun e => e + 1) 0 3 0 rfl

/-- C5: `and_then(err(e), f)` never invokes `f` — its outcome is the same for
every `f`, it leaves the context untouched, and it yields `Err(e)`; when the
first transaction succeeds with `v`, `and_then` runs `f(v)` against the context
the first transaction left behind. -/
theorem C5_and_then_short_circuit :
    (∀ (Ctx T U E : Type) (e : E) (f g : T → Tx Ctx U E) (ctx : Ctx),
      ((err e : Tx Ctx T E).and_then f).run ctx =
        ((err e : Tx Ctx T E).and_then g).run ctx) ∧
    (∀ (Ctx T U E : Type) (e : E) (f : T → Tx Ctx U E) (ctx : Ctx),
      ((err e : Tx Ctx T E).and_then f).run ctx = (Except.error e, ctx)) ∧
    (∀ (Ctx T U E : Type) (tx : Tx Ctx T E) (f : T → Tx Ctx U E) (ctx : Ctx)
      (v : T) (c : Ctx), tx.run ctx = (Except.ok v, c) →
        (tx.and_then f).run ctx = (f v).run c) := by
  refine ⟨fun Ctx T U E e f g ctx => rfl, fun Ctx T U E e f ctx => rfl, ?_⟩
  intro Ctx T U E tx f ctx v c h
  simp [Tx.and_then, h]

/-- C5 witness: with the first transaction `ok 2` succeeding on context `5`,
`and_then` runs the continuation on the same context: the continuation
`with_ctx` doubling the context yields `(Ok 10, 10)`. -/
theorem C5_and_then_short_circuit_witness :
    ((ok 2 : Tx Nat Nat Nat).and_then
        (fun _ => with_ctx (fun c => (Except.ok (c * 2), c * 2)))).run 5 =
      (Except.ok 10, 10) :=
  C5_and_then_short_circuit.2.2 Nat Nat Nat Nat (ok 2)
    (fun _ => with_ctx (fun c => (Except.ok (c * 2), c * 2))) 5 2 5 rfl

end TransactionRs

namespace TransactionRs

/-- C6: `and_then` is associative — `and_then(and_then(tx, f), g)` produces the
same result and the same final context as `and_then(tx, fun v => and_then(f v, g))`
on every context. -/
theorem C6_and_then_assoc :
    ∀ (Ctx T U V E : Type) (tx : Tx Ctx T E) (f : T → Tx Ctx U E)
      (g : U → Tx Ctx V E) (ctx : Ctx),
      ((tx.and_then f).and_then g).run ctx =
        (tx.and_then (fun v => (f v).and_then g)).run ctx := by
  intro Ctx T U V E tx f g ctx
  rcases h1 : tx.run ctx with ⟨r1, c1⟩
  cases r1 <;> simp [Tx.and_then, h1]

/-- C7: `abort(tx, f)` converts any success of `tx` into a failure by applying
`f` to the success value, and passes any failure through unchanged; in
particular `abort(ok(v), f)` yields `Err(f(v))` and `abort(err(e), f)` yields
`Err(e)`, with the context left as `tx` left it. -/
theorem C7_abort :
    (∀ (Ctx T E U : Type) (tx : Tx Ctx T E) (f : T → E) (ctx : Ctx) (v : T)
      (c : Ctx), tx.run ctx = (Except.ok v, c) →
        (tx.abort f : Tx Ctx U E).run ctx = (Except.error (f v), c)) ∧
    (∀ (Ctx T E U : Type) (tx : Tx Ctx T E) (f : T → E) (ctx : Ctx) (e : E)
      (c : Ctx), tx.run ctx = (Except.error e, c) →
        (tx.abort f : Tx Ctx U E).run ctx = (Except.error e, c)) ∧
    (∀ (Ctx T E U : Type) (f : T → E) (v : T) (ctx : Ctx),
      ((ok v : Tx Ctx T E).abort f : Tx Ctx U E).run ctx =
        (Except.error (f v), ctx)) ∧
    (∀ (Ctx T E U : Type) (f : T → E) (e : E) (ctx : Ctx),
      ((err e : Tx Ctx T E).abort f : Tx Ctx U E).run ctx =
        (Except.error e, ctx)) := by
  refine ⟨?_, ?_, ?_, ?_⟩
  · intro Ctx T E U tx f ctx v c h
    simp [Tx.abort, h]
  · intro Ctx T E U tx f ctx e c h
    simp [Tx.abort, h]
  · intro Ctx T E U f v ctx
    rfl
  · intro Ctx T E U f e ctx
    rfl

/-- C7 witness: `abort(ok(2), +1)` on context `0` yields `Err 3` with the
context unchanged, by the first conjunct at concrete inputs. -/
theorem C7_abort_witness :
    ((ok 2 : Tx Nat Nat Nat).abort (fun v => v + 1) : Tx Nat Nat Nat).run 0 =
      (Except.error 3, 0) :=
  C7_abort.1 Nat Nat Nat Nat (ok 2) (fun v => v + 1) 0 2 0 rfl

/-- C8: erasure is transparent — for every concrete transaction (of any
composition depth, since `tx` is universally quantified) and every context,
running the boxed handle produced by `boxed` (through the `Box` forwarding
impl) or a shared reference to the transaction produces the same outcome and
final context as running the transaction directly. -/
theorem C8_erasure_transparent :
    ∀ (Ctx T E : Type) (tx : Tx Ctx T E) (ctx : Ctx),
      (tx.boxed).toTx.run ctx = tx.run ctx ∧
      (tx.boxed).run ctx = tx.run ctx ∧
      (refTx tx).run ctx = tx.run ctx :=
  fun _ _ _ _ _ => ⟨rfl, rfl, rfl⟩

/-- C9: the leaves built with `result`, `ok`, `err` and `lazy` leave the
context unchanged, and their result value is the same for every context (it
does not depend on the context's value). -/
theorem C9_non_ctx_leaves_frame :
    (∀ (Ctx T E : Type) (r : Except E T) (ctx : Ctx),
      (result r : Tx Ctx T E).run ctx = (r, ctx)) ∧
    (∀ (Ctx T E : Type) (v : T) (ctx : Ctx),
      (ok v : Tx Ctx T E).run ctx = (Except.ok v, ctx)) ∧
    (∀ (Ctx T E : Type) (e : E) (ctx : Ctx),
      (err e : Tx Ctx T E).run ctx = (Except.error e, ctx)) ∧
    (∀ (Ctx T E : Type) (f : Unit → Except E T) (ctx : Ctx),
      (lazy f : Tx Ctx T E).run ctx = (f (), ctx)) ∧
    (∀ (Ctx T E : Type) (r : Except E T) (ctx ctx2 : Ctx),
      ((result r : Tx Ctx T E).run ctx).1 = ((result r : Tx Ctx T E).run ctx2).1) ∧
    (∀ (Ctx T E : Type) (f : Unit → Except E T) (ctx ctx2 : Ctx),
      ((lazy f : Tx Ctx T E).run ctx).1 = ((lazy f : Tx Ctx T E).run ctx2).1) :=
  ⟨fun _ _ _ _ _ => rfl, fun _ _ _ _ _ => rfl, fun _ _ _ _ _ => rfl,
   fun _ _ _ _ _ => rfl, fun _ _ _ _ _ _ => rfl, fun _ _ _ _ _ _ => rfl⟩

/-- C10: the algebra performs no rollback on failure — a concrete composed
transaction whose first step mutates the context (increments it) and whose
continuation fails returns `Err` while the final context `1` differs from the
initial context `0`: the earlier mutation is retained. -/
theorem C10_no_rollback :
    ((with_ctx (fun c => (Except.ok (), c + 1))).and_then
        (fun _ => (err 7 : Tx Nat Nat Nat))).run 0 = (Except.error 7, 1) ∧
      (1 : Nat) ≠ 0 :=
  ⟨rfl, by decide⟩

end TransactionRs
